import Mathlib

/-!
Verification of `examples/model-deployment-skeleton/app.py`: a Flask service
with two routes, `/health` and `/predict`.  The app's handlers are embedded
as Lean functions; the surrounding Flask routing layer (route matching,
allowed-method checks, the automatic `HEAD`/`OPTIONS` methods, the 404 and
405 defaults, and `request.get_json`'s BadRequest on a malformed JSON body)
is embedded from Flask's documented dispatch semantics, which the app relies
on unchanged.
-/

namespace ModelDeploy

/-- JSON values: object, array, string, number, boolean, null.
Numbers are modelled as integers; no claim depends on number semantics. -/
inductive Json : Type where
  | null : Json
  | bool : Bool → Json
  | num : Int → Json
  | str : String → Json
  | arr : List Json → Json
  | obj : List (String × Json) → Json

/-- HTTP methods relevant to the routes and claims. -/
inductive Method : Type where
  | GET
  | POST
  | PUT
  | DELETE
  | PATCH
  | HEAD
  | OPTIONS
deriving DecidableEq, Repr

/-- An incoming HTTP request.  `is_json` is Flask's `request.is_json`: whether
the Content-Type header declares a JSON mimetype.  `bodyParse` abstracts the
raw body by what parsing it as JSON would give: `some v` when the body is
present and is valid JSON text parsing to `v`, `none` when the body is absent
or not valid JSON. -/
structure Request : Type where
  method : Method
  path : String
  is_json : Bool
  bodyParse : Option Json

/-- An HTTP response: status code and JSON body.  `body = none` for responses
whose body the app does not define (framework error pages, bodiless
`HEAD`/`OPTIONS` replies). -/
structure Response : Type where
  status : Nat
  body : Option Json

/-- Whether a JSON object body carries a given key (false on non-objects). -/
def Json.hasKey : Json → String → Bool
  | Json.obj fs, k => fs.any (fun p => p.1 == k)
  | _, _ => false

/-- Flask's `request.get_json()` as reached on line 13 of app.py, where it is
guarded by `request.is_json`: returns the parsed body, and raises BadRequest
(HTTP 400) when the body fails to parse as JSON. -/
def get_json (r : Request) : Except Nat Json :=
  match r.bodyParse with
  | some v => Except.ok v
  | none => Except.error 400

/-- The `health` handler (app.py lines 5-7): `jsonify({'status': 'ok'})`.
Handlers return `Except Nat Json`: `ok` is a 200 JSON body, `error s` is an
HTTPException with status `s` raised while handling. -/
def health (_r : Request) : Except Nat Json :=
  Except.ok (Json.obj [("status", Json.str "ok")])

/-- The `predict` handler (app.py lines 9-15): on a POST whose Content-Type
declares JSON, echo the parsed body under `input`; otherwise the fixed
fallback `{'prediction': 'dummy'}`. -/
def predict (r : Request) : Except Nat Json :=
  if r.method == Method.POST && r.is_json then
    match get_json r with
    | Except.ok data =>
        Except.ok (Json.obj [("prediction", Json.str "dummy"), ("input", data)])
    | Except.error e => Except.error e
  else
    Except.ok (Json.obj [("prediction", Json.str "dummy")])

/-- Methods Flask accepts for `@app.route('/health')` (no `methods=...`):
GET, plus the automatically added HEAD and OPTIONS. -/
def healthMethods : List Method :=
  [Method.GET, Method.HEAD, Method.OPTIONS]

/-- Methods Flask accepts for `@app.route('/predict', methods=['POST','GET'])`:
the listed POST and GET, plus the automatically added HEAD and OPTIONS. -/
def predictMethods : List Method :=
  [Method.POST, Method.GET, Method.HEAD, Method.OPTIONS]

/-- Turn a handler outcome into an HTTP response: an `ok` body is serialized
with status 200; a raised HTTPException becomes the framework's error
response with its status and a default (unconstrained) body. -/
def runHandler (h : Request → Except Nat Json) (r : Request) : Response :=
  match h r with
  | Except.ok b => Response.mk 200 (some b)
  | Except.error s => Response.mk s none

/-- Flask dispatch for one matched route: reject methods outside the rule's
set with 405, answer OPTIONS automatically with an empty 200, run the handler
for HEAD but strip the body, and otherwise run the handler. -/
def dispatch (ms : List Method) (h : Request → Except Nat Json) (r : Request) :
    Response :=
  if r.method ∈ ms then
    if r.method = Method.OPTIONS then
      Response.mk 200 none
    else if r.method = Method.HEAD then
      Response.mk (runHandler h r).status none
    else
      runHandler h r
  else
    Response.mk 405 none

/-- The whole app: route on the path, falling through to Flask's default 404
for paths bound to no rule. -/
def app (r : Request) : Response :=
  if r.path = "/health" then
    dispatch healthMethods health r
  else if r.path = "/predict" then
    dispatch predictMethods predict r
  else
    Response.mk 404 none

/-- Sequential processing of a stream of requests, one response each. -/
def serve : List Request → List Response
  | [] => []
  | r :: rs => app r :: serve rs

/-- The fixed fallback body `{"prediction": "dummy"}`. -/
def predDummy : Json :=
  Json.obj [("prediction", Json.str "dummy")]

/-- The echo body `{"prediction": "dummy", "input": v}`. -/
def predEcho (v : Json) : Json :=
  Json.obj [("prediction", Json.str "dummy"), ("input", v)]

/-- The health body `{"status": "ok"}`. -/
def healthOk : Json :=
  Json.obj [("status", Json.str "ok")]

/-- Claim C1 fails as stated: a POST to /predict whose body is the valid JSON
text for the object with field x = 1, but whose Content-Type does not declare
JSON, gets the fallback body without the input field, not the echo. -/
theorem predict_untyped_valid_body_not_echoed :
    app (Request.mk Method.POST "/predict" false
        (some (Json.obj [("x", Json.num 1)]))) =
      Response.mk 200 (some predDummy) ∧
    predDummy ≠ predEcho (Json.obj [("x", Json.num 1)]) := by
  refine ⟨rfl, ?_⟩
  simp [predDummy, predEcho]

/-- Claim C1, amended: for every JSON value v, a POST to /predict whose
Content-Type declares JSON and whose body parses to v yields status 200 and
body with prediction = "dummy" and input = v. -/
theorem predict_post_json_echo (v : Json) :
    app (Request.mk Method.POST "/predict" true (some v)) =
      Response.mk 200 (some (predEcho v)) := rfl

/-- Claim C2 fails as stated: a POST to /predict whose Content-Type declares
JSON but whose body does not parse as JSON gets status 400 from the raised
BadRequest, not 200. -/
theorem predict_post_bad_json_400 :
    (app (Request.mk Method.POST "/predict" true none)).status = 400 ∧
    (400 : Nat) ≠ 200 := by
  exact ⟨rfl, by decide⟩

/-- Claim C2, amended: a POST to /predict whose Content-Type does not declare
JSON gets status 200 and the fallback body with no input field, whatever its
body; when the Content-Type declares JSON but the body is missing or invalid,
the framework answers with status 400. -/
theorem predict_post_not_json_fallback :
    (∀ b : Option Json,
        app (Request.mk Method.POST "/predict" false b) =
          Response.mk 200 (some predDummy)) ∧
    app (Request.mk Method.POST "/predict" true none) =
      Response.mk 400 none :=
  ⟨fun _ => rfl, rfl⟩

/-- Claim C3 fails as stated: a POST to /health is rejected by the routing
layer with status 405, because the route is registered for GET only. -/
theorem health_post_not_200 :
    (app (Request.mk Method.POST "/health" false none)).status = 405 ∧
    (405 : Nat) ≠ 200 := by
  exact ⟨rfl, by decide⟩

/-- Claim C3, amended: every GET request to /health, with any body content,
gets status 200 and body with status = "ok". -/
theorem health_get_ok (ct : Bool) (b : Option Json) :
    app (Request.mk Method.GET "/health" ct b) =
      Response.mk 200 (some healthOk) := rfl

/-- Claim C4: every GET request to /predict, regardless of any attached body,
gets status 200 and the fixed body with prediction = "dummy", and that body
has no input key. -/
theorem predict_get_fallback (ct : Bool) (b : Option Json) :
    app (Request.mk Method.GET "/predict" ct b) =
      Response.mk 200 (some predDummy) ∧
    Json.hasKey predDummy "input" = false :=
  ⟨rfl, rfl⟩

/-- Claim C5: every request whose path is neither /health nor /predict gets
status 404; its body is left unconstrained. -/
theorem app_unknown_path_404 (m : Method) (p : String) (ct : Bool)
    (b : Option Json) (h1 : p ≠ "/health") (h2 : p ≠ "/predict") :
    (app (Request.mk m p ct b)).status = 404 := by
  unfold app
  rw [if_neg h1, if_neg h2]

/-- Witness for C5 at the concrete path /unknown. -/
theorem app_unknown_path_404_witness :
    ("/unknown" : String) ≠ "/health" ∧ ("/unknown" : String) ≠ "/predict" ∧
    (app (Request.mk Method.GET "/unknown" false none)).status = 404 :=
  ⟨by decide, by decide,
    app_unknown_path_404 Method.GET "/unknown" false none (by decide)
      (by decide)⟩

/-- Claim C6: request handling is pure and stateless. Serving a stream of
requests responds to each with `app` of that request alone: the responses are
`List.map app`, the response to a request is the same whatever requests came
before it, and repeating one request any number of times yields identical
responses. -/
theorem serve_pure_stateless :
    (∀ rs : List Request, serve rs = rs.map app) ∧
    (∀ (past : List Request) (r : Request),
        serve (past ++ [r]) = serve past ++ [app r]) ∧
    (∀ (r : Request) (n : Nat),
        serve (List.replicate n r) = List.replicate n (app r)) := by
  have hmap : ∀ rs : List Request, serve rs = rs.map app := by
    intro rs
    induction rs with
    | nil => rfl
    | cons x xs ih => simp [serve, ih]
  refine ⟨hmap, ?_, ?_⟩
  · intro past r
    rw [hmap, hmap, List.map_append]
    rfl
  · intro r n
    rw [hmap, List.map_replicate]

/-- Claim C7: the /health handler is total and cannot fail: on every request
it returns the body with status = "ok" and never raises. -/
theorem health_handler_total (r : Request) :
    health r = Except.ok healthOk := rfl

/-- Claim C8: the /health route accepts only GET (plus HEAD and OPTIONS);
POST, PUT and DELETE requests to /health get the method-not-allowed status
405, not 200. -/
theorem health_other_methods_405 (m : Method) (ct : Bool) (b : Option Json)
    (hm : m = Method.POST ∨ m = Method.PUT ∨ m = Method.DELETE) :
    (app (Request.mk m "/health" ct b)).status = 405 ∧
    (405 : Nat) ≠ 200 := by
  rcases hm with h | h | h <;> subst h <;> exact ⟨rfl, by decide⟩

/-- Witness for C8 at a concrete POST to /health. -/
theorem health_other_methods_405_witness :
    (Method.POST = Method.POST ∨ Method.POST = Method.PUT ∨
      Method.POST = Method.DELETE) ∧
    ((app (Request.mk Method.POST "/health" false none)).status = 405 ∧
      (405 : Nat) ≠ 200) :=
  ⟨Or.inl rfl,
    health_other_methods_405 Method.POST false none (Or.inl rfl)⟩

/-- Claim C9: a POST to /predict whose Content-Type declares JSON but whose
body does not parse gets the framework status 400, and the fallback body is
returned only when the Content-Type is not a JSON type. -/
theorem predict_json_gate :
    app (Request.mk Method.POST "/predict" true none) =
      Response.mk 400 none ∧
    (∀ (ct : Bool) (b : Option Json),
        (app (Request.mk Method.POST "/predict" ct b)).body = some predDummy →
        ct = false) := by
  refine ⟨rfl, ?_⟩
  intro ct b h
  cases ct with
  | false => rfl
  | true =>
      cases b with
      | none => exact Option.noConfusion h
      | some v =>
          exfalso
          simp [app, dispatch, runHandler, predict, get_json, predDummy,
            predictMethods] at h

/-- Witness for C9 at a concrete POST without a JSON Content-Type. -/
theorem predict_json_gate_witness :
    (app (Request.mk Method.POST "/predict" false none)).body =
      some predDummy ∧ false = false :=
  ⟨rfl, predict_json_gate.2 false none rfl⟩

/-- Claim C10: the /predict route accepts exactly POST and GET (plus HEAD and
OPTIONS); PUT, DELETE and PATCH requests to /predict get the
method-not-allowed status 405. -/
theorem predict_other_methods_405 (m : Method) (ct : Bool) (b : Option Json)
    (hm : m = Method.PUT ∨ m = Method.DELETE ∨ m = Method.PATCH) :
    (app (Request.mk m "/predict" ct b)).status = 405 := by
  rcases hm with h | h | h <;> subst h <;> rfl

/-- Witness for C10 at a concrete PUT to /predict. -/
theorem predict_other_methods_405_witness :
    (Method.PUT = Method.PUT ∨ Method.PUT = Method.DELETE ∨
      Method.PUT = Method.PATCH) ∧
    (app (Request.mk Method.PUT "/predict" false none)).status = 405 :=
  ⟨Or.inl rfl,
    predict_other_methods_405 Method.PUT false none (Or.inl rfl)⟩

end ModelDeploy
